import Mathlib

/-!
Shallow embedding of `src/req.c` from hnsd: the DNS request validator
`hsk_dns_req_create` and the response finalizer `hsk_dns_msg_finalize`.

External collaborators (the DNS wire codec, the clean-name checker, the
label utilities, the question allocator, record stripping, truncation and
SIG0 signing) live in other files of the repository that are not part of
this sample.  Each of them is either modelled from the spec (marked
`Modelled from the spec:` in its doc comment) or taken as a function
parameter that the theorems constrain only by the contract the spec
states for it; the finalizer takes the fallible ones — the allocator
outcome, the stripping operation and the three byte-level operations —
as parameters, so every failure path of the C function is present.

Machine integers are modelled as `Nat`; the one place where C unsigned
wrap-around is reachable (the `size_t` budget subtraction in the
finalizer) wraps explicitly modulo `2 ^ 64`.
-/

/-! ## Constants

The numeric constants come from `constants.h`, `dns.h` and `sig0.h`,
which are not under `src/`; the values the spec fixes (512, 4096, the
signature record size) are taken from the spec, the DNS header bits are
the standard wire-format bit positions used by the identically named
C macros. -/

/-- Header bit `HSK_DNS_QR`, the response flag: bit 15 of the flags word. -/
def HSK_DNS_QR : Nat := 2 ^ 15

/-- Header bit `HSK_DNS_RD`, recursion desired: bit 8 of the flags word. -/
def HSK_DNS_RD : Nat := 2 ^ 8

/-- Header bit `HSK_DNS_CD`, checking disabled: bit 4 of the flags word. -/
def HSK_DNS_CD : Nat := 2 ^ 4

/-- EDNS flag bit `HSK_DNS_DO`, DNSSEC OK: bit 15 of the EDNS flags word. -/
def HSK_DNS_DO : Nat := 2 ^ 15

/-- Opcode `HSK_DNS_QUERY`. -/
def HSK_DNS_QUERY : Nat := 0

/-- Response code `HSK_DNS_NOERROR`. -/
def HSK_DNS_NOERROR : Nat := 0

/-- Class `HSK_DNS_IN`. -/
def HSK_DNS_IN : Nat := 1

/-- Record type `HSK_DNS_RRSIG` (the DNSSEC signature record type). -/
def HSK_DNS_RRSIG : Nat := 46

/-- Modelled from the spec: `HSK_DNS_MAX_UDP`, the default UDP response
budget of 512 bytes. -/
def HSK_DNS_MAX_UDP : Nat := 512

/-- Modelled from the spec: `HSK_SIG0_RR_SIZE` (`sig0.h`, not under
`src/`), the fixed wire size of one SIG0 signature record, reserved from
the truncation budget whenever signing is requested. -/
def HSK_SIG0_RR_SIZE : Nat := 94

/-- Modelled from the spec: the maximum domain-name length that the
bounded name buffer of a request is meant to enforce (the standard DNS
name bound; the concrete buffer size lives in `req.h`, not under `src/`). -/
def HSK_DNS_MAX_NAME : Nat := 255

/-! ## Data model -/

/-- EDNS state of a message (`hsk_dns_edns_t`, `dns.h`, not under `src/`),
restricted to the fields `req.c` reads and writes.  `rd` is the
option-data buffer (`uint8_t *`, nullable), `rd_len` its length. -/
structure hsk_dns_edns_t where
  enabled : Bool
  version : Nat
  flags : Nat
  size : Nat
  code : Nat
  rd : Option (List Nat)
  rd_len : Nat
deriving DecidableEq

/-- A question (`hsk_dns_qs_t`).  C strings are modelled as character
lists; the C field `class` is spelled `qclass` because `class` is a
reserved word in Lean. -/
structure hsk_dns_qs_t where
  name : List Char
  type : Nat
  qclass : Nat
deriving DecidableEq

/-- A resource record, reduced to the fields the `req.c` pipeline
inspects: its owner name and its type code (the rdata plays no role in
any of the operations under verification). -/
structure hsk_dns_rr_t where
  name : List Char
  type : Nat
deriving DecidableEq

/-- A decoded DNS message (`hsk_dns_msg_t`) as used by `req.c`: header
fields, the four sections and the EDNS state. -/
structure hsk_dns_msg_t where
  id : Nat
  opcode : Nat
  code : Nat
  flags : Nat
  qd : List hsk_dns_qs_t
  an : List hsk_dns_rr_t
  ns : List hsk_dns_rr_t
  ar : List hsk_dns_rr_t
  edns : hsk_dns_edns_t
deriving DecidableEq

/-- A validated request (`hsk_dns_req_t`, `req.h`, not under `src/`),
with the fields `hsk_dns_req_create` assigns.  The C `name` field is a
fixed-size `char` array filled by `strcpy`; it is modelled as an
unbounded character list so that the length behaviour of the copy is
observable.  The sender address is an abstract value that is copied (not
referenced) into the request. -/
structure hsk_dns_req_t where
  ns : Option Unit
  id : Nat
  labels : Nat
  name : List Char
  type : Nat
  qclass : Nat
  rd : Bool
  cd : Bool
  edns : Bool
  max_size : Nat
  dnssec : Bool
  tld : List Char
  addr : Nat
deriving DecidableEq

/-- Bit test exactly as written in the C: `(flags & mask) != 0`. -/
def hasFlag (flags mask : Nat) : Bool := flags &&& mask != 0

/-! ## Modelled external name utilities -/

/-- Modelled from the spec: the character classes the clean-name check
`hsk_dns_name_dirty` (`dns.c`, not under `src/`) rejects.  The spec
describes the check only as a canonical-form guard against malformed and
escaped label sequences, so control bytes, non-ASCII bytes and a
representative set of escape characters are treated as dirty. -/
def hsk_dns_char_dirty (c : Char) : Bool :=
  c.toNat < 0x20 || c.toNat > 0x7e || c = '(' || c = ')' || c = ';' || c = '@'

/-- Modelled from the spec: `hsk_dns_name_dirty` (`dns.c`, not under
`src/`), true when some character of the name is dirty. -/
def hsk_dns_name_dirty (name : List Char) : Bool :=
  name.any hsk_dns_char_dirty

/-- Modelled from the spec: the per-character ASCII lowering used by
`hsk_to_lower` (`utils.c`, not under `src/`). -/
def hsk_to_lower_char (c : Char) : Char :=
  if 'A' ≤ c ∧ c ≤ 'Z' then Char.ofNat (c.toNat + 32) else c

/-- Modelled from the spec: `hsk_to_lower`, in-place ASCII lowercasing. -/
def hsk_to_lower (s : List Char) : List Char := s.map hsk_to_lower_char

/-- Modelled from the spec: the labels of a dotted name as used by the
label utilities of `dns.c` (not under `src/`): the nonempty
dot-separated components. -/
def nameLabels (name : List Char) : List (List Char) :=
  (name.splitOn '.').filter (fun l => !l.isEmpty)

/-- Modelled from the spec: `hsk_dns_label_count`. -/
def hsk_dns_label_count (name : List Char) : Nat := (nameLabels name).length

/-- Modelled from the spec: `hsk_dns_label_get` with index `-1`, the
last non-root label of the name. -/
def hsk_dns_label_get_last (name : List Char) : List Char :=
  (nameLabels name).getLastD []

/-! ## The request validator -/

/-- Embedding of `hsk_dns_req_create` (`req.c` lines 55-125).  The decode
step is external, so the function takes the decoder result directly
(`none` models a decode failure).  Allocation of the request
(`hsk_dns_req_alloc`) is modelled as succeeding.  On any rejection the C
frees the partial request and the decoded message and returns `NULL`,
modelled as `none`. -/
def hsk_dns_req_create (decoded : Option hsk_dns_msg_t) (addr : Nat) :
    Option hsk_dns_req_t :=
  match decoded with
  | none => none
  | some msg =>
    if msg.opcode ≠ HSK_DNS_QUERY ∨ msg.code ≠ HSK_DNS_NOERROR
        ∨ msg.qd.length ≠ 1 ∨ msg.an.length ≠ 0 ∨ msg.ns.length ≠ 0 then
      none
    else
      match msg.qd with
      | [qs] =>
        if qs.qclass ≠ HSK_DNS_IN then none
        else if hsk_dns_name_dirty qs.name then none
        else some
          { ns := none
            id := msg.id
            labels := hsk_dns_label_count qs.name
            -- strcpy(req->name, qs->name): an unbounded, unchecked copy.
            name := qs.name
            type := qs.type
            qclass := qs.qclass
            rd := hasFlag msg.flags HSK_DNS_RD
            cd := hasFlag msg.flags HSK_DNS_CD
            edns := msg.edns.enabled
            max_size :=
              if msg.edns.enabled ∧ HSK_DNS_MAX_UDP ≤ msg.edns.size then
                msg.edns.size
              else HSK_DNS_MAX_UDP
            dnssec := hasFlag msg.edns.flags HSK_DNS_DO
            tld := hsk_to_lower (hsk_dns_label_get_last qs.name)
            addr := addr }
      | _ => none

/-! ## The response finalizer -/

/-- Modelled from the spec: the stripping transformation computed by
`hsk_dns_msg_clean` (`dns.c`, not under `src/`) when it succeeds:
removes all signature (RRSIG) records from the answer, authority and
additional sections.  It is parameterized by the query type; the spec
delegates the exception policy for special query types to this
operation's own contract, and no exception is modelled. -/
def hsk_dns_msg_strip (msg : hsk_dns_msg_t) (qtype : Nat) : hsk_dns_msg_t :=
  { msg with
    an := msg.an.filter (fun rr => rr.type != HSK_DNS_RRSIG)
    ns := msg.ns.filter (fun rr => rr.type != HSK_DNS_RRSIG)
    ar := msg.ar.filter (fun rr => rr.type != HSK_DNS_RRSIG) }

/-- Modelled from the spec: `hsk_dns_msg_clean` (`dns.c`, not under
`src/`), with the fallible interface the spec gives the stripping
operation.  Its only failure mode in the C is allocation, so this
concrete instance always succeeds with the stripped message; the
finalizer below takes the operation as an unconstrained parameter, so
its failure branch (`req.c` lines 213-217) is modelled there, and this
instance serves the witnesses. -/
def hsk_dns_msg_clean (msg : hsk_dns_msg_t) (qtype : Nat) :
    Option hsk_dns_msg_t :=
  some (hsk_dns_msg_strip msg qtype)

/-- Header portion of `hsk_dns_msg_finalize` (`req.c` lines 167-210):
the header rewrite (id and the QR/RD/CD bit ORs), the EDNS reset and
renegotiation, and the question replacement.  The fresh question
produced by a successful `hsk_dns_qs_alloc` is an IN-class question
(its class comes from the question initializer, not under `src/`) whose
type and name lines 207-208 fill from the request. -/
def hsk_dns_msg_finalize_header (msg : hsk_dns_msg_t)
    (req : hsk_dns_req_t) : hsk_dns_msg_t :=
  -- Reset ID & flags.
  let flags := msg.flags ||| HSK_DNS_QR
  let flags := if req.rd then flags ||| HSK_DNS_RD else flags
  let flags := if req.cd then flags ||| HSK_DNS_CD else flags
  -- Reset EDNS stuff; the prior option-data buffer is released (rd := none).
  let edns : hsk_dns_edns_t :=
    { enabled := false, version := 0, flags := 0, size := 512,
      code := 0, rd := none, rd_len := 0 }
  let edns :=
    if req.edns then
      { edns with
        enabled := true
        size := 4096
        flags := if req.dnssec then edns.flags ||| HSK_DNS_DO else edns.flags }
    else edns
  -- Reset question: uninit the old section, push the one synthesized question.
  let qs : hsk_dns_qs_t := { name := req.name, type := req.type, qclass := HSK_DNS_IN }
  { msg with id := req.id, flags := flags, edns := edns, qd := [qs] }

/-- Message-level portion of `hsk_dns_msg_finalize` (`req.c` lines
167-218) on its success path: the header stage followed by the
conditional RRSIG stripping — the message the finalizer hands to the
encoder when question allocation and stripping succeed. -/
def hsk_dns_msg_finalize_msg (msg : hsk_dns_msg_t) (req : hsk_dns_req_t) :
    hsk_dns_msg_t :=
  -- Remove RRSIGs if they didn't ask for them.
  if !req.dnssec then
    hsk_dns_msg_strip (hsk_dns_msg_finalize_header msg req) req.type
  else hsk_dns_msg_finalize_header msg req

/-- The conditional stripping step of `hsk_dns_msg_finalize` (`req.c`
lines 212-218): the external clean operation is applied, and its failure
propagated, exactly when the request did not ask for DNSSEC records;
otherwise the message passes through untouched. -/
def finalizeCleanStep
    (clean : hsk_dns_msg_t → Nat → Option hsk_dns_msg_t)
    (req : hsk_dns_req_t) (msg : hsk_dns_msg_t) : Option hsk_dns_msg_t :=
  if !req.dnssec then clean msg req.type else some msg

/-- Opaque elliptic-curve signing context (`hsk_ec_t`, `ec.h`, not under
`src/`); only its non-nullness matters to `req.c`. -/
structure hsk_ec_t where
  ctx : Nat
deriving DecidableEq

/-- Instrumented outcome of `hsk_dns_msg_finalize`: the returned boolean
and the two wire out-parameters, together with bookkeeping that mirrors
the C resource handling — how often the response template was passed to
`hsk_dns_msg_free` (`msgFrees`), whether the intermediate encode buffer
was allocated and how often it was freed (`dataAllocs`, `dataFrees`),
the key arguments handed to the signing primitive in order
(`signKeys`), the post-truncation length when truncation was reached
(`truncLen`), and whether the entry assertion held (`assertOk`). -/
structure FinalizeOut where
  ok : Bool
  wire : Option (List Nat)
  wire_len : Nat
  truncLen : Option Nat
  msgFrees : Nat
  dataAllocs : Nat
  dataFrees : Nat
  signKeys : List (Option (List Nat))
  assertOk : Bool
deriving DecidableEq

/-- Embedding of `hsk_dns_msg_finalize` (`req.c` lines 150-260).  The
byte-level externals — the encoder `hsk_dns_msg_encode`, the truncation
algorithm `hsk_dns_msg_truncate` and the SIG0 signer `hsk_sig0_sign` —
live outside `src/` and are taken as parameters; the theorems below
constrain them only by the contracts the spec states for them.  The
pointer out-parameters `*wire`/`*wire_len` are the `wire`/`wire_len`
fields of the result, cleared on entry and assigned only on full
success.  `res`, `req`, `wire` and `wire_len` are passed by value and
hence non-null, so of the entry assertion only the nullable `ec`
argument is modelled; a failed assertion aborts the process, so that
branch performs no frees and reports `assertOk := false`.  The `size_t`
subtraction of the budget computation wraps modulo `2 ^ 64`.

All five failure paths of the C function past the assertion are
modelled: question-allocation failure (lines 200-205, the outcome of
`hsk_dns_qs_alloc` taken as the parameter `qs_alloc` — only its success
or failure is consumed, since lines 207-210 overwrite the allocated
question with the request's type and name, yielding the question
`hsk_dns_msg_finalize_header` synthesizes), stripping failure (lines
213-217, the external clean operation taken as the parameter `clean`;
`hsk_dns_msg_clean` above is its concrete instance), and encode,
truncate and sign failure.  Each failure branch frees the template
exactly once and returns false, mirroring the C (line 204 returns NULL,
which is false). -/
def hsk_dns_msg_finalize
    (qs_alloc : Option Unit)
    (clean : hsk_dns_msg_t → Nat → Option hsk_dns_msg_t)
    (encode : hsk_dns_msg_t → Option (List Nat))
    (truncate : List Nat → Nat → Option (List Nat))
    (sign : hsk_ec_t → Option (List Nat) → List Nat → Option (List Nat))
    (res : hsk_dns_msg_t) (req : hsk_dns_req_t)
    (ec : Option hsk_ec_t) (key : Option (List Nat)) : FinalizeOut :=
  match ec with
  | none =>
    -- assert(res && req && ec && wire && wire_len) fails: abort.
    { ok := false, wire := none, wire_len := 0, truncLen := none,
      msgFrees := 0, dataAllocs := 0, dataFrees := 0, signKeys := [],
      assertOk := false }
  | some e =>
    -- Reset question: hsk_dns_qs_alloc may fail (req.c lines 200-205).
    match qs_alloc with
    | none =>
      { ok := false, wire := none, wire_len := 0, truncLen := none,
        msgFrees := 1, dataAllocs := 0, dataFrees := 0, signKeys := [],
        assertOk := true }
    | some _ =>
      -- Header rewrite, EDNS negotiation, question replacement.
      let msg := hsk_dns_msg_finalize_header res req
      -- Remove RRSIGs if they didn't ask for them (req.c lines 212-218).
      match finalizeCleanStep clean req msg with
      | none =>
        { ok := false, wire := none, wire_len := 0, truncLen := none,
          msgFrees := 1, dataAllocs := 0, dataFrees := 0, signKeys := [],
          assertOk := true }
      | some msg2 =>
        -- Reserialize.
        match encode msg2 with
        | none =>
          { ok := false, wire := none, wire_len := 0, truncLen := none,
            msgFrees := 1, dataAllocs := 0, dataFrees := 0, signKeys := [],
            assertOk := true }
        | some data =>
          -- Truncate: max = req->max_size, minus the SIG0 size if signing.
          let max : Nat :=
            if key.isSome then
              (req.max_size + 2 ^ 64 - HSK_SIG0_RR_SIZE) % 2 ^ 64
            else req.max_size
          match truncate data max with
          | none =>
            { ok := false, wire := none, wire_len := 0, truncLen := none,
              msgFrees := 1, dataAllocs := 1, dataFrees := 1, signKeys := [],
              assertOk := true }
          | some data2 =>
            -- Sign: invoked on every path reaching here, key may be none.
            match sign e key data2 with
            | none =>
              { ok := false, wire := none, wire_len := 0,
                truncLen := some data2.length,
                msgFrees := 1, dataAllocs := 1, dataFrees := 1,
                signKeys := [key], assertOk := true }
            | some out =>
              { ok := true, wire := some out, wire_len := out.length,
                truncLen := some data2.length,
                msgFrees := 1, dataAllocs := 1, dataFrees := 1,
                signKeys := [key], assertOk := true }

/-- Number of signature (RRSIG) records in the record sections of a
message. -/
def countRRSIG (msg : hsk_dns_msg_t) : Nat :=
  ((msg.an ++ msg.ns ++ msg.ar).filter (fun rr => rr.type == HSK_DNS_RRSIG)).length

/-! ## Concrete inputs used by witnesses and counterexamples -/

/-- Zeroed EDNS state, as a zero-filled decoder output would carry. -/
def ednsZero : hsk_dns_edns_t :=
  { enabled := false, version := 0, flags := 0, size := 0, code := 0,
    rd := none, rd_len := 0 }

/-- A minimal well-formed decoded message with no questions. -/
def baseMsg : hsk_dns_msg_t :=
  { id := 0, opcode := 0, code := 0, flags := 0,
    qd := [], an := [], ns := [], ar := [], edns := ednsZero }

/-- A minimal validated request for a one-label name with no EDNS. -/
def baseReq : hsk_dns_req_t :=
  { ns := none, id := 0, labels := 1, name := ['x'], type := 1, qclass := 1,
    rd := false, cd := false, edns := false, max_size := 512,
    dnssec := false, tld := ['x'], addr := 0 }

/-- Question used by the C1 input. -/
def c1qs : hsk_dns_qs_t := { name := ['x'], type := 1, qclass := 1 }

/-- Valid query whose decoded EDNS storage has the DO bit set although
EDNS is absent (`enabled = false`). -/
def c1msg : hsk_dns_msg_t :=
  { baseMsg with
    id := 7
    qd := [c1qs]
    edns := { ednsZero with flags := HSK_DNS_DO } }

/-- The request `hsk_dns_req_create` produces for `c1msg`. -/
def c1req : hsk_dns_req_t := { baseReq with id := 7, dnssec := true }

/-- Response template whose header already carries the RD bit. -/
def c2msg : hsk_dns_msg_t := { baseMsg with flags := HSK_DNS_RD }

/-- Request with `rd = false` and `cd = false`. -/
def c2req : hsk_dns_req_t := { baseReq with dnssec := true }

/-- A 260-character name, longer than the maximum domain-name length. -/
def c3name : List Char := List.replicate 260 'a'

/-- Valid query carrying the overlong name `c3name`. -/
def c3msg : hsk_dns_msg_t :=
  { baseMsg with qd := [{ name := c3name, type := 1, qclass := 1 }] }

/-- The request `hsk_dns_req_create` produces for `c3msg`: the overlong
name is copied verbatim. -/
def c3req : hsk_dns_req_t := { baseReq with name := c3name, tld := c3name }

/-- Question of the fully valid C4 query. -/
def c4qs : hsk_dns_qs_t := { name := ['e', 'x'], type := 2, qclass := 1 }

/-- A fully valid query: opcode QUERY, code NOERROR, one IN question with
a clean name, empty answer and authority sections. -/
def c4msg : hsk_dns_msg_t := { baseMsg with id := 9, qd := [c4qs] }

/-- Valid query advertising EDNS with size 4096. -/
def c5msg : hsk_dns_msg_t :=
  { baseMsg with
    qd := [{ name := ['x'], type := 1, qclass := 1 }]
    edns := { ednsZero with enabled := true, size := 4096 } }

/-- The request `hsk_dns_req_create` produces for `c5msg`. -/
def c5req : hsk_dns_req_t := { baseReq with edns := true, max_size := 4096 }

/-- Encoder instance for the C7 witness: a fixed 600-byte buffer. -/
def c7encode : hsk_dns_msg_t → Option (List Nat) :=
  fun _ => some (List.replicate 600 0)

/-- Truncation instance for the C7 witness, satisfying the spec contract
that the output length never exceeds the budget. -/
def c7truncate : List Nat → Nat → Option (List Nat) :=
  fun d m => some (d.take m)

/-- Signing instance for the C7 witness, satisfying the spec contract:
with a key it appends exactly one signature record, without a key it
returns the buffer unchanged. -/
def c7sign : hsk_ec_t → Option (List Nat) → List Nat → Option (List Nat) :=
  fun _ k d =>
    match k with
    | some _ => some (d ++ List.replicate HSK_SIG0_RR_SIZE 0)
    | none => some d

/-- Response template with signature records in the answer and
additional sections. -/
def c8msg : hsk_dns_msg_t :=
  { baseMsg with
    an := [{ name := ['x'], type := HSK_DNS_RRSIG }, { name := ['x'], type := 1 }]
    ar := [{ name := ['x'], type := HSK_DNS_RRSIG }] }

/-- Request with `dnssec = false`. -/
def c8reqF : hsk_dns_req_t := baseReq

/-- Request with `dnssec = true`. -/
def c8reqT : hsk_dns_req_t := { baseReq with dnssec := true }

/-- Encoder that always fails, exercising a finalizer failure path. -/
def failEncode : hsk_dns_msg_t → Option (List Nat) := fun _ => none

/-- Encoder that always succeeds with an empty buffer. -/
def idEncode : hsk_dns_msg_t → Option (List Nat) := fun _ => some []

/-- Truncation that returns its input unchanged. -/
def idTruncate : List Nat → Nat → Option (List Nat) := fun d _ => some d

/-- Signer that returns its input unchanged. -/
def idSign : hsk_ec_t → Option (List Nat) → List Nat → Option (List Nat) :=
  fun _ _ d => some d

/-! ## Helper lemmas -/

/-- The C bit test against a single-bit mask is the corresponding
`testBit`. -/
theorem hasFlag_two_pow (f k : Nat) : hasFlag f (2 ^ k) = f.testBit k := by
  unfold hasFlag
  rw [Nat.and_two_pow]
  cases h : f.testBit k <;> simp

/-- Stripping RRSIG records leaves no RRSIG record behind. -/
theorem filter_rrsig_len (l : List hsk_dns_rr_t) :
    ((l.filter (fun rr => rr.type != HSK_DNS_RRSIG)).filter
      (fun rr => rr.type == HSK_DNS_RRSIG)).length = 0 := by
  induction l with
  | nil => rfl
  | cons rr t ih =>
    by_cases h : rr.type = HSK_DNS_RRSIG <;>
      simp only [List.filter_cons, h, bne_self_eq_false, cond_false, bne,
        beq_self_eq_true, Bool.not_true, ih, beq_iff_eq, if_true, if_false] <;>
      simp [h, ih]

/-- Inversion of a successful validation: the decoded message passed
every check, and the produced request is exactly the record the C
assignments build. -/
theorem req_create_some_inv (msg : hsk_dns_msg_t) (addr : Nat)
    (req : hsk_dns_req_t)
    (h : hsk_dns_req_create (some msg) addr = some req) :
    ∃ qs, msg.qd = [qs] ∧
      msg.opcode = HSK_DNS_QUERY ∧ msg.code = HSK_DNS_NOERROR ∧
      msg.an = [] ∧ msg.ns = [] ∧ qs.qclass = HSK_DNS_IN ∧
      hsk_dns_name_dirty qs.name = false ∧
      req = { ns := none, id := msg.id,
              labels := hsk_dns_label_count qs.name,
              name := qs.name, type := qs.type, qclass := qs.qclass,
              rd := hasFlag msg.flags HSK_DNS_RD,
              cd := hasFlag msg.flags HSK_DNS_CD,
              edns := msg.edns.enabled,
              max_size :=
                if msg.edns.enabled ∧ HSK_DNS_MAX_UDP ≤ msg.edns.size then
                  msg.edns.size
                else HSK_DNS_MAX_UDP,
              dnssec := hasFlag msg.edns.flags HSK_DNS_DO,
              tld := hsk_to_lower (hsk_dns_label_get_last qs.name),
              addr := addr } := by
  unfold hsk_dns_req_create at h
  dsimp only at h
  split at h
  · simp at h
  · rename_i hcond
    push_neg at hcond
    obtain ⟨hop, hcode, hqd1, han, hns⟩ := hcond
    obtain ⟨qs, hqd⟩ := List.length_eq_one.mp hqd1
    rw [hqd] at h
    dsimp only at h
    split at h
    · simp at h
    · split at h
      · simp at h
      · rename_i hclass hdirty
        refine ⟨qs, hqd, hop, hcode, List.length_eq_zero.mp han,
          List.length_eq_zero.mp hns, not_ne_iff.mp hclass, ?_, ?_⟩
        · simpa using hdirty
        · exact (Option.some.inj h).symm

/-! ## Claim C1 -/

/-- Claim C1, counterexample: a query accepted by the validator whose
decoded message has no EDNS record (`enabled = false`) but whose EDNS
flag-bit storage carries the DO bit; the produced request nevertheless
has `dnssec = true`, contradicting the claim that `dnssecOk` is false
whenever EDNS is absent. -/
theorem req_create_dnssec_without_edns :
    c1msg.edns.enabled = false ∧
    (hsk_dns_req_create (some c1msg) 0).map hsk_dns_req_t.dnssec = some true := by
  decide

/-- Claim C1, amended: for every accepted query the request's `dnssec`
field mirrors the DO bit of the decoded message's EDNS flag storage
alone — line 107 of `req.c` never consults `edns.enabled` — so it
coincides with the claimed conjunction only when the decoder zeroes the
EDNS flags of EDNS-less messages. -/
theorem req_create_dnssec_mirrors_do_storage (msg : hsk_dns_msg_t)
    (addr : Nat) (req : hsk_dns_req_t)
    (h : hsk_dns_req_create (some msg) addr = some req) :
    req.dnssec = hasFlag msg.edns.flags HSK_DNS_DO := by
  obtain ⟨qs, -, -, -, -, -, -, -, hreq⟩ := req_create_some_inv msg addr req h
  rw [hreq]

/-- Witness for the amended C1 theorem at the concrete input `c1msg`. -/
theorem req_create_dnssec_mirrors_do_storage_witness :
    c1req.dnssec = hasFlag c1msg.edns.flags HSK_DNS_DO :=
  req_create_dnssec_mirrors_do_storage c1msg 0 c1req (by decide)

/-! ## Claim C3 -/

set_option maxRecDepth 16384 in
/-- Claim C3, counterexample: a query whose question name is 260
characters long — beyond the maximum domain-name length — is accepted,
and the overlong name is copied into the request in full; the copy does
not fail closed. -/
theorem req_create_accepts_overlong_name :
    HSK_DNS_MAX_NAME < c3name.length ∧
    (hsk_dns_req_create (some c3msg) 0).map hsk_dns_req_t.name = some c3name := by
  decide

/-- Claim C3, amended: the name copy of `hsk_dns_req_create` (the
`strcpy` at line 98 of `req.c`) is unchecked — every accepted query has
its question name copied into the request verbatim, whatever its
length; no query is rejected for name length, and staying within the
fixed-size C buffer relies on the upstream decoder and name checker, not
on the copy itself. -/
theorem req_create_copies_name_verbatim (msg : hsk_dns_msg_t) (addr : Nat)
    (req : hsk_dns_req_t)
    (h : hsk_dns_req_create (some msg) addr = some req) :
    ∃ qs, msg.qd = [qs] ∧ req.name = qs.name := by
  obtain ⟨qs, hqd, -, -, -, -, -, -, hreq⟩ := req_create_some_inv msg addr req h
  exact ⟨qs, hqd, by rw [hreq]⟩

set_option maxRecDepth 16384 in
/-- Witness for the amended C3 theorem at the concrete input `c3msg`. -/
theorem req_create_copies_name_verbatim_witness :
    ∃ qs, c3msg.qd = [qs] ∧ c3req.name = qs.name :=
  req_create_copies_name_verbatim c3msg 0 c3req (by decide)

/-! ## Claim C4 -/

/-- Claim C4: `hsk_dns_req_create` produces a request exactly when the
decode succeeded, the opcode is QUERY, the response code is NOERROR,
there is exactly one question, the answer and authority sections are
empty, the sole question is class IN and its name passes the clean-name
check; any deviation yields `none`, so no partially valid request
exists.  (Allocation, the one further C failure mode, is modelled as
succeeding.) -/
theorem req_create_validation_iff (decoded : Option hsk_dns_msg_t)
    (addr : Nat) :
    (hsk_dns_req_create decoded addr).isSome = true ↔
      ∃ msg qs, decoded = some msg ∧ msg.qd = [qs] ∧
        msg.opcode = HSK_DNS_QUERY ∧ msg.code = HSK_DNS_NOERROR ∧
        msg.an = [] ∧ msg.ns = [] ∧ qs.qclass = HSK_DNS_IN ∧
        hsk_dns_name_dirty qs.name = false := by
  constructor
  · intro h
    cases decoded with
    | none => simp [hsk_dns_req_create] at h
    | some msg =>
      obtain ⟨req, hreq⟩ := Option.isSome_iff_exists.mp h
      obtain ⟨qs, hqd, hop, hcode, han, hns, hclass, hdirty, -⟩ :=
        req_create_some_inv msg addr req hreq
      exact ⟨msg, qs, rfl, hqd, hop, hcode, han, hns, hclass, hdirty⟩
  · rintro ⟨msg, qs, rfl, hqd, hop, hcode, han, hns, hclass, hdirty⟩
    simp [hsk_dns_req_create, hqd, hop, hcode, han, hns, hclass, hdirty]

/-- Witness for C4: the fully valid query `c4msg` is accepted. -/
theorem req_create_validation_iff_witness :
    (hsk_dns_req_create (some c4msg) 0).isSome = true :=
  (req_create_validation_iff (some c4msg) 0).mpr
    ⟨c4msg, c4qs, rfl, rfl, rfl, rfl, rfl, rfl, rfl, by decide⟩

/-! ## Claim C5 -/

/-- Claim C5: for every accepted query the request's `max_size` is the
advertised EDNS size when EDNS is present and that size is at least 512,
and the default 512 otherwise (EDNS absent or advertising less than
512); in particular it is never below 512. -/
theorem req_create_max_size_policy (msg : hsk_dns_msg_t) (addr : Nat)
    (req : hsk_dns_req_t)
    (h : hsk_dns_req_create (some msg) addr = some req) :
    req.max_size =
      (if msg.edns.enabled ∧ HSK_DNS_MAX_UDP ≤ msg.edns.size then
        msg.edns.size
      else HSK_DNS_MAX_UDP) ∧
    HSK_DNS_MAX_UDP ≤ req.max_size := by
  obtain ⟨qs, -, -, -, -, -, -, -, hreq⟩ := req_create_some_inv msg addr req h
  refine ⟨by rw [hreq], ?_⟩
  rw [hreq]
  dsimp only
  split
  · rename_i h2
    exact h2.2
  · exact le_refl _

/-- Witness for C5 at the concrete EDNS query `c5msg`. -/
theorem req_create_max_size_policy_witness :
    c5req.max_size =
      (if c5msg.edns.enabled ∧ HSK_DNS_MAX_UDP ≤ c5msg.edns.size then
        c5msg.edns.size
      else HSK_DNS_MAX_UDP) ∧
    HSK_DNS_MAX_UDP ≤ c5req.max_size :=
  req_create_max_size_policy c5msg 0 c5req (by decide)

/-! ## Claim C2 -/

/-- Claim C2, counterexample: a response template whose header already
carries the RD bit, finalized for a request with `rd = false`, still has
the RD bit set — the header flags are OR-ed, not overwritten, so they
are not equal to the request's flags. -/
theorem finalize_rd_not_overwritten :
    c2req.rd = false ∧
    hasFlag (hsk_dns_msg_finalize_msg c2msg c2req).flags HSK_DNS_RD = true := by
  decide

/-- Claim C2, amended: the finalizer sets the response id to the
request's id and unconditionally sets the QR flag, but the RD and CD
bits are OR-ed into whatever flags the template carried: the response's
RD bit is `request.rd OR template-RD` (and likewise for CD), so it
equals the request's flag only when the template's corresponding bit was
clear on entry. -/
theorem finalize_header_rewrite (msg : hsk_dns_msg_t) (req : hsk_dns_req_t) :
    (hsk_dns_msg_finalize_msg msg req).id = req.id ∧
    hasFlag (hsk_dns_msg_finalize_msg msg req).flags HSK_DNS_QR = true ∧
    hasFlag (hsk_dns_msg_finalize_msg msg req).flags HSK_DNS_RD
      = (req.rd || hasFlag msg.flags HSK_DNS_RD) ∧
    hasFlag (hsk_dns_msg_finalize_msg msg req).flags HSK_DNS_CD
      = (req.cd || hasFlag msg.flags HSK_DNS_CD) := by
  unfold hsk_dns_msg_finalize_msg hsk_dns_msg_finalize_header hsk_dns_msg_strip
  have h15 : ∀ f : Nat, hasFlag f 32768 = f.testBit 15 := fun f =>
    hasFlag_two_pow f 15
  have h8 : ∀ f : Nat, hasFlag f 256 = f.testBit 8 := fun f =>
    hasFlag_two_pow f 8
  have h4 : ∀ f : Nat, hasFlag f 16 = f.testBit 4 := fun f =>
    hasFlag_two_pow f 4
  have t1 : Nat.testBit 32768 15 = true := by decide
  have t2 : Nat.testBit 32768 8 = false := by decide
  have t3 : Nat.testBit 32768 4 = false := by decide
  have t4 : Nat.testBit 256 8 = true := by decide
  have t5 : Nat.testBit 256 15 = false := by decide
  have t6 : Nat.testBit 256 4 = false := by decide
  have t7 : Nat.testBit 16 4 = true := by decide
  have t8 : Nat.testBit 16 15 = false := by decide
  have t9 : Nat.testBit 16 8 = false := by decide
  cases hd : req.dnssec <;> cases hr : req.rd <;> cases hc : req.cd <;>
    simp [HSK_DNS_QR, HSK_DNS_RD, HSK_DNS_CD, h15, h8, h4,
      Nat.testBit_or, t1, t2, t3, t4, t5, t6, t7, t8, t9]

/-! ## Claim C6 -/

/-- Claim C6: the finalizer first resets the template's EDNS state to
disabled, version 0, flags 0, size 512, extended-rcode 0 with the
option-data buffer released and its length zeroed; then, exactly when
`request.edns` holds, it re-enables EDNS with advertised size 4096
(independent of `request.max_size`) and sets the DO flag exactly when
`request.dnssec` holds; when `request.edns` is false the EDNS state
stays at the reset values. -/
theorem finalize_edns_negotiation (msg : hsk_dns_msg_t) (req : hsk_dns_req_t) :
    (hsk_dns_msg_finalize_msg msg req).edns =
      (if req.edns then
        { enabled := true, version := 0,
          flags := if req.dnssec then HSK_DNS_DO else 0,
          size := 4096, code := 0, rd := none, rd_len := 0 }
      else
        { enabled := false, version := 0, flags := 0, size := 512,
          code := 0, rd := none, rd_len := 0 }) := by
  unfold hsk_dns_msg_finalize_msg hsk_dns_msg_finalize_header hsk_dns_msg_strip
  cases he : req.edns <;> cases hd : req.dnssec <;> simp

/-! ## Claim C8 -/

/-- Claim C8: when the request's `dnssec` is false, the finalized
message contains zero signature (RRSIG) records — the stripping
operation, parameterized by the request's type, having been applied to
every record section; when `dnssec` is true no stripping is performed
and the template's answer, authority and additional sections are
preserved unchanged. -/
theorem finalize_rrsig_policy (msg : hsk_dns_msg_t) (req : hsk_dns_req_t) :
    (req.dnssec = false → countRRSIG (hsk_dns_msg_finalize_msg msg req) = 0) ∧
    (req.dnssec = true →
      (hsk_dns_msg_finalize_msg msg req).an = msg.an ∧
      (hsk_dns_msg_finalize_msg msg req).ns = msg.ns ∧
      (hsk_dns_msg_finalize_msg msg req).ar = msg.ar) := by
  constructor
  · intro h
    unfold hsk_dns_msg_finalize_msg hsk_dns_msg_finalize_header hsk_dns_msg_strip countRRSIG
    simp [h, List.filter_append, filter_rrsig_len]
  · intro h
    unfold hsk_dns_msg_finalize_msg hsk_dns_msg_finalize_header hsk_dns_msg_strip
    simp [h]

/-- Witness for C8: finalizing the template `c8msg`, which carries RRSIG
records, for a `dnssec = false` request leaves no RRSIG record, and for
a `dnssec = true` request leaves all sections untouched. -/
theorem finalize_rrsig_policy_witness :
    countRRSIG (hsk_dns_msg_finalize_msg c8msg c8reqF) = 0 ∧
    ((hsk_dns_msg_finalize_msg c8msg c8reqT).an = c8msg.an ∧
     (hsk_dns_msg_finalize_msg c8msg c8reqT).ns = c8msg.ns ∧
     (hsk_dns_msg_finalize_msg c8msg c8reqT).ar = c8msg.ar) :=
  ⟨(finalize_rrsig_policy c8msg c8reqF).1 rfl,
   (finalize_rrsig_policy c8msg c8reqT).2 rfl⟩

/-! ## Byte-level finalizer claims -/

/-- Inversion of a successful finalization: the question allocation and
each external step returned a value, and the wire out-parameters expose
the signer's output and the truncated length. -/
theorem finalize_ok_inv
    (qs_alloc : Option Unit)
    (clean : hsk_dns_msg_t → Nat → Option hsk_dns_msg_t)
    (encode : hsk_dns_msg_t → Option (List Nat))
    (truncate : List Nat → Nat → Option (List Nat))
    (sign : hsk_ec_t → Option (List Nat) → List Nat → Option (List Nat))
    (res : hsk_dns_msg_t) (req : hsk_dns_req_t) (ec : hsk_ec_t)
    (key : Option (List Nat))
    (hok : (hsk_dns_msg_finalize qs_alloc clean encode truncate sign res req
      (some ec) key).ok = true) :
    ∃ u msg2 data data2 out,
      qs_alloc = some u ∧
      finalizeCleanStep clean req (hsk_dns_msg_finalize_header res req)
        = some msg2 ∧
      encode msg2 = some data ∧
      truncate data
        (if key.isSome then (req.max_size + 2 ^ 64 - HSK_SIG0_RR_SIZE) % 2 ^ 64
        else req.max_size) = some data2 ∧
      sign ec key data2 = some out ∧
      (hsk_dns_msg_finalize qs_alloc clean encode truncate sign res req
        (some ec) key).wire_len = out.length ∧
      (hsk_dns_msg_finalize qs_alloc clean encode truncate sign res req
        (some ec) key).truncLen = some data2.length := by
  cases hqa : qs_alloc with
  | none =>
    unfold hsk_dns_msg_finalize at hok
    rw [hqa] at hok
    dsimp only at hok
    simp at hok
  | some u =>
    unfold hsk_dns_msg_finalize at hok ⊢
    rw [hqa] at hok
    dsimp only at hok ⊢
    split at hok
    · simp at hok
    · rename_i msg2 hC
      split at hok
      · simp at hok
      · rename_i data hE
        split at hok
        · simp at hok
        · rename_i data2 hT
          split at hok
          · simp at hok
          · rename_i out hS
            exact ⟨u, msg2, data, data2, out, rfl, hC, hE, hT, hS,
              by simp [hC, hE, hT, hS], by simp [hC, hE, hT, hS]⟩

/-! ## Claim C7 -/

/-- Claim C7: under the spec contracts for the external truncation
(output length bounded by the budget) and signer (appends exactly one
signature record when keyed, returns the buffer unchanged otherwise),
every successful finalization of a validator-produced request (whose
`max_size` is at least the signature record size and fits in 16 bits)
yields wire bytes no longer than `request.max_size`; and when a signing
key is supplied, the pre-signature truncated length is at most
`request.max_size` minus the signature record size. -/
theorem finalize_wire_within_budget
    (qs_alloc : Option Unit)
    (clean : hsk_dns_msg_t → Nat → Option hsk_dns_msg_t)
    (encode : hsk_dns_msg_t → Option (List Nat))
    (truncate : List Nat → Nat → Option (List Nat))
    (sign : hsk_ec_t → Option (List Nat) → List Nat → Option (List Nat))
    (res : hsk_dns_msg_t) (req : hsk_dns_req_t) (ec : hsk_ec_t)
    (key : Option (List Nat))
    (hsz : HSK_SIG0_RR_SIZE ≤ req.max_size) (hw : req.max_size < 2 ^ 16)
    (htr : ∀ d m out, truncate d m = some out → out.length ≤ m)
    (hsg : ∀ k d out, sign ec (some k) d = some out →
      out.length = d.length + HSK_SIG0_RR_SIZE)
    (hsn : ∀ d out, sign ec none d = some out → out.length = d.length)
    (hok : (hsk_dns_msg_finalize qs_alloc clean encode truncate sign res req
      (some ec) key).ok = true) :
    (hsk_dns_msg_finalize qs_alloc clean encode truncate sign res req
      (some ec) key).wire_len ≤ req.max_size ∧
    ∀ k, key = some k →
      ∃ t, (hsk_dns_msg_finalize qs_alloc clean encode truncate sign res req
              (some ec) key).truncLen = some t ∧
        t ≤ req.max_size - HSK_SIG0_RR_SIZE := by
  obtain ⟨u, msg2, data, data2, out, hQ, hC, hE, hT, hS, hwl, htl⟩ :=
    finalize_ok_inv qs_alloc clean encode truncate sign res req ec key hok
  cases key with
  | none =>
    simp only [Option.isSome_none, Bool.false_eq_true, if_false] at hT
    have hle := htr data req.max_size data2 hT
    have hlen := hsn data2 out hS
    refine ⟨?_, ?_⟩
    · rw [hwl, hlen]
      exact hle
    · intro k hk
      simp at hk
  | some k0 =>
    simp only [Option.isSome_some, if_true] at hT
    have hmod : (req.max_size + 2 ^ 64 - HSK_SIG0_RR_SIZE) % 2 ^ 64
        = req.max_size - HSK_SIG0_RR_SIZE := by
      simp only [HSK_SIG0_RR_SIZE] at hsz ⊢
      omega
    rw [hmod] at hT
    have hle := htr data (req.max_size - HSK_SIG0_RR_SIZE) data2 hT
    have hlen := hsg k0 data2 out hS
    refine ⟨?_, ?_⟩
    · rw [hwl, hlen]
      simp only [HSK_SIG0_RR_SIZE] at hsz hle ⊢
      omega
    · intro k hk
      exact ⟨data2.length, htl, hle⟩

/-- Witness for C7: concrete externals satisfying the contracts â a
successful question allocation, the concrete stripping instance, a
600-byte encoding, a 512-byte budget and a supplied key. -/
theorem finalize_wire_within_budget_witness :
    (hsk_dns_msg_finalize (some ()) hsk_dns_msg_clean c7encode c7truncate
      c7sign baseMsg baseReq (some { ctx := 0 }) (some [1])).wire_len
      ≤ baseReq.max_size ∧
    ∀ k, (some [1] : Option (List Nat)) = some k →
      ∃ t, (hsk_dns_msg_finalize (some ()) hsk_dns_msg_clean c7encode
              c7truncate c7sign baseMsg baseReq (some { ctx := 0 })
              (some [1])).truncLen = some t ∧
        t ≤ baseReq.max_size - HSK_SIG0_RR_SIZE :=
  finalize_wire_within_budget (some ()) hsk_dns_msg_clean c7encode c7truncate
    c7sign baseMsg baseReq { ctx := 0 } (some [1])
    (by decide) (by decide)
    (by
      intro d m out h
      simp only [c7truncate, Option.some.injEq] at h
      rw [← h, List.length_take]
      omega)
    (by
      intro k d out h
      simp only [c7sign, Option.some.injEq] at h
      rw [← h]
      simp [HSK_SIG0_RR_SIZE])
    (by
      intro d out h
      simp only [c7sign, Option.some.injEq] at h
      rw [← h])
    (by rfl)

/-! ## Claim C9 -/

/-- Claim C9: for every call that passes the entry assertion, whenever
the finalizer fails its out-parameters are never partially populated
(`wire` is none and `wire_len` is zero, as cleared on entry), and the
response template is consumed exactly once — `hsk_dns_msg_free` is
applied to it exactly once on each of the five failure paths
(question-allocation failure, stripping failure, encode failure,
truncate failure, sign failure) and on success — while the intermediate
encode buffer is freed exactly as many times as it was allocated (never
leaked, never double-freed). -/
theorem finalize_failure_is_all_or_nothing
    (qs_alloc : Option Unit)
    (clean : hsk_dns_msg_t → Nat → Option hsk_dns_msg_t)
    (encode : hsk_dns_msg_t → Option (List Nat))
    (truncate : List Nat → Nat → Option (List Nat))
    (sign : hsk_ec_t → Option (List Nat) → List Nat → Option (List Nat))
    (res : hsk_dns_msg_t) (req : hsk_dns_req_t) (ec : hsk_ec_t)
    (key : Option (List Nat)) :
    ((hsk_dns_msg_finalize qs_alloc clean encode truncate sign res req
        (some ec) key).ok = false →
      (hsk_dns_msg_finalize qs_alloc clean encode truncate sign res req
        (some ec) key).wire = none ∧
      (hsk_dns_msg_finalize qs_alloc clean encode truncate sign res req
        (some ec) key).wire_len = 0) ∧
    (hsk_dns_msg_finalize qs_alloc clean encode truncate sign res req
      (some ec) key).msgFrees = 1 ∧
    (hsk_dns_msg_finalize qs_alloc clean encode truncate sign res req
      (some ec) key).dataFrees
      = (hsk_dns_msg_finalize qs_alloc clean encode truncate sign res req
          (some ec) key).dataAllocs ∧
    (hsk_dns_msg_finalize qs_alloc clean encode truncate sign res req
      (some ec) key).dataAllocs ≤ 1 := by
  unfold hsk_dns_msg_finalize
  dsimp only
  split
  · simp
  · split
    · simp
    · split
      · simp
      · split
        · simp
        · split
          · simp
          · simp

/-- Witness for C9: a failed question allocation makes the finalizer
fail with empty out-parameters and the template still freed exactly
once; likewise a failing encoder after a successful allocation. -/
theorem finalize_failure_is_all_or_nothing_witness :
    ((hsk_dns_msg_finalize none hsk_dns_msg_clean failEncode idTruncate
        idSign baseMsg baseReq (some { ctx := 0 }) none).wire = none ∧
     (hsk_dns_msg_finalize none hsk_dns_msg_clean failEncode idTruncate
        idSign baseMsg baseReq (some { ctx := 0 }) none).wire_len = 0) ∧
    (hsk_dns_msg_finalize none hsk_dns_msg_clean failEncode idTruncate
        idSign baseMsg baseReq (some { ctx := 0 }) none).msgFrees = 1 ∧
    (hsk_dns_msg_finalize (some ()) hsk_dns_msg_clean failEncode idTruncate
        idSign baseMsg baseReq (some { ctx := 0 }) none).msgFrees = 1 :=
  ⟨(finalize_failure_is_all_or_nothing none hsk_dns_msg_clean failEncode
      idTruncate idSign baseMsg baseReq { ctx := 0 } none).1 rfl,
   (finalize_failure_is_all_or_nothing none hsk_dns_msg_clean failEncode
      idTruncate idSign baseMsg baseReq { ctx := 0 } none).2.1,
   (finalize_failure_is_all_or_nothing (some ()) hsk_dns_msg_clean failEncode
      idTruncate idSign baseMsg baseReq { ctx := 0 } none).2.1⟩

/-! ## Claim C10 -/

/-- Claim C10: the finalizer's entry assertion demands a non-null EC
context regardless of whether a key is supplied (with `ec` null the
assertion fails for every key), and the signing primitive is invoked on
every successful path, exactly once, receiving the caller's key argument
as is — a null key when signing is not requested — rather than being
bypassed. -/
theorem finalize_requires_ec_and_always_signs
    (qs_alloc : Option Unit)
    (clean : hsk_dns_msg_t → Nat → Option hsk_dns_msg_t)
    (encode : hsk_dns_msg_t → Option (List Nat))
    (truncate : List Nat → Nat → Option (List Nat))
    (sign : hsk_ec_t → Option (List Nat) → List Nat → Option (List Nat))
    (res : hsk_dns_msg_t) (req : hsk_dns_req_t) (key : Option (List Nat)) :
    (hsk_dns_msg_finalize qs_alloc clean encode truncate sign res req none
      key).assertOk = false ∧
    ∀ ec : hsk_ec_t,
      (hsk_dns_msg_finalize qs_alloc clean encode truncate sign res req
        (some ec) key).ok = true →
      (hsk_dns_msg_finalize qs_alloc clean encode truncate sign res req
        (some ec) key).signKeys = [key] := by
  refine ⟨rfl, ?_⟩
  intro ec hok
  obtain ⟨u, msg2, data, data2, out, hQ, hC, hE, hT, hS, -, -⟩ :=
    finalize_ok_inv qs_alloc clean encode truncate sign res req ec key hok
  unfold hsk_dns_msg_finalize
  dsimp only
  rw [hQ]
  dsimp only
  rw [hC]
  dsimp only
  rw [hE]
  dsimp only
  rw [hT]
  dsimp only
  rw [hS]

/-- Witness for C10: with `ec` null the assertion fails; with `ec`
present and no key, the successful run still invoked the signer once,
with the null key. -/
theorem finalize_requires_ec_and_always_signs_witness :
    (hsk_dns_msg_finalize (some ()) hsk_dns_msg_clean idEncode idTruncate
      idSign baseMsg baseReq none (none : Option (List Nat))).assertOk
      = false ∧
    (hsk_dns_msg_finalize (some ()) hsk_dns_msg_clean idEncode idTruncate
      idSign baseMsg baseReq (some { ctx := 0 })
      (none : Option (List Nat))).signKeys = [none] :=
  ⟨(finalize_requires_ec_and_always_signs (some ()) hsk_dns_msg_clean
      idEncode idTruncate idSign baseMsg baseReq none).1,
   (finalize_requires_ec_and_always_signs (some ()) hsk_dns_msg_clean
      idEncode idTruncate idSign baseMsg baseReq none).2 { ctx := 0 } rfl⟩
